import Mathlib

/-
A shallow embedding of src/ui/src/assets/docker_model_runner.py (the Docker
Model Runner pipeline) together with proofs about its behavior.

Modeling conventions:
- Python strings are lists of characters (PyStr).
- JSON values decoded by json.loads are the inductive type Json.
- Python dynamic-typing failures (TypeError, KeyError, IndexError,
  AttributeError) are the type PyErr; the source distinguishes them by which
  handler catches them, so the embedding tracks their kind.  The exact CPython
  message texts are not reproduced; no property below depends on them.
- Library effects (requests.get/post, time.time, time.sleep, json.loads) are
  modeled as explicit environment parameters; print logging is not modeled.
- time.time() returns a float in the source; only subtraction and comparison
  of clock values are used, so clocks are modeled as integers.
-/

namespace DMR

/-- Python str values, modeled as lists of characters. -/
abbrev PyStr := List Char

/-- The character list of a Lean string literal. -/
def strL (s : String) : PyStr := s.toList

/-- Python s.startswith(p): `leadsWith p s` tests whether p begins s. -/
def leadsWith : PyStr → PyStr → Bool
  | [], _ => true
  | _ :: _, [] => false
  | p :: ps, c :: cs => p == c && leadsWith ps cs

/-- Python `needle in hay` on two strings: substring test. -/
def containsSub (needle : PyStr) : PyStr → Bool
  | [] => leadsWith needle []
  | c :: rest => leadsWith needle (c :: rest) || containsSub needle rest

/-- Python s.strip(): remove leading and trailing whitespace. -/
def pyStrip (s : PyStr) : PyStr :=
  ((s.dropWhile Char.isWhitespace).reverse.dropWhile Char.isWhitespace).reverse

/-- Python " ".join(parts). -/
def sjoin : List PyStr → PyStr
  | [] => []
  | [x] => x
  | x :: y :: xs => x ++ ' ' :: sjoin (y :: xs)

/-- Decimal rendering of a natural number (Python f-string interpolation). -/
def natStr (n : Nat) : PyStr := (Nat.repr n).toList

/-- JSON values as decoded by Python json.loads.  Floating point numbers do
not occur in any claim and are not modeled. -/
inductive Json where
  | null
  | bool (b : Bool)
  | num (n : Int)
  | str (s : PyStr)
  | arr (elems : List Json)
  | obj (fields : List (PyStr × Json))

/-- Python exceptions distinguished by the source's handlers. -/
inductive PyErr where
  | typeError (msg : PyStr)
  | keyError (msg : PyStr)
  | indexError (msg : PyStr)
  | attrError (msg : PyStr)

/-- Python str(e) of an exception (the message it was raised with). -/
def pyErrStr : PyErr → PyStr
  | .typeError m => m
  | .keyError m => m
  | .indexError m => m
  | .attrError m => m

/-- Key lookup in a decoded JSON object.  Objects produced by json.loads have
unique keys (later duplicates overwrite earlier ones), so field lists in this
model are assumed duplicate-free and the first match is the binding. -/
def jlookup (k : PyStr) : List (PyStr × Json) → Option Json
  | [] => none
  | kv :: rest => if kv.1 = k then some kv.2 else jlookup k rest

/-- Whether a JSON element equals a given Python string (Python ==). -/
def isStrVal (needle : PyStr) : Json → Bool
  | .str s => s == needle
  | _ => false

/-- Python `needle in v` for a string needle: key test on dicts, membership on
lists, substring test on strings; TypeError on values that are not iterable. -/
def pyContains (needle : PyStr) : Json → Except PyErr Bool
  | .obj kvs => .ok (jlookup needle kvs).isSome
  | .arr xs => .ok (xs.any (isStrVal needle))
  | .str s => .ok (containsSub needle s)
  | _ => .error (.typeError (strL "argument is not iterable"))

/-- Python len(v): TypeError on values without a length. -/
def pyLen : Json → Except PyErr Nat
  | .str s => .ok s.length
  | .arr xs => .ok xs.length
  | .obj kvs => .ok kvs.length
  | _ => .error (.typeError (strL "object has no len"))

/-- Python v[key] for a string key. -/
def pyIndexKey (key : PyStr) : Json → Except PyErr Json
  | .obj kvs =>
    match jlookup key kvs with
    | some v => .ok v
    | none => .error (.keyError key)
  | .arr _ => .error (.typeError (strL "list indices must be integers"))
  | .str _ => .error (.typeError (strL "string indices must be integers"))
  | _ => .error (.typeError (strL "object is not subscriptable"))

/-- Python v[0]: first element of a list, first character of a string (as a
one-character string), KeyError on a dict decoded from JSON (whose keys are
all strings, so the integer key 0 is absent), TypeError otherwise. -/
def pyIndexZero : Json → Except PyErr Json
  | .arr (x :: _) => .ok x
  | .arr [] => .error (.indexError (strL "list index out of range"))
  | .str (c :: _) => .ok (.str [c])
  | .str [] => .error (.indexError (strL "string index out of range"))
  | .obj _ => .error (.keyError (strL "0"))
  | _ => .error (.typeError (strL "object is not subscriptable"))

/-- Python v.get(key, dflt): only dicts have a .get method. -/
def pyGet (key : PyStr) (dflt : Json) : Json → Except PyErr Json
  | .obj kvs => .ok ((jlookup key kvs).getD dflt)
  | _ => .error (.attrError (strL "object has no attribute get"))

/-- Python truthiness of a decoded JSON value. -/
def pyTruthy : Json → Bool
  | .null => false
  | .bool b => b
  | .num n => n != 0
  | .str s => !s.isEmpty
  | .arr xs => !xs.isEmpty
  | .obj kvs => !kvs.isEmpty

mutual

/-- Python repr() of a decoded JSON value (dicts and lists render with Python
punctuation; escaping inside string reprs is not reproduced). -/
def pyRepr : Json → PyStr
  | .null => strL "None"
  | .bool true => strL "True"
  | .bool false => strL "False"
  | .num n => (toString n).toList
  | .str s => Char.ofNat 39 :: s ++ [Char.ofNat 39]
  | .arr xs => '[' :: pyReprList xs ++ [']']
  | .obj kvs => '\x7b' :: pyReprObj kvs ++ ['\x7d']

/-- Comma-separated reprs of list elements. -/
def pyReprList : List Json → PyStr
  | [] => []
  | [x] => pyRepr x
  | x :: y :: xs => pyRepr x ++ ',' :: ' ' :: pyReprList (y :: xs)

/-- Comma-separated key: value reprs of dict entries. -/
def pyReprObj : List (PyStr × Json) → PyStr
  | [] => []
  | [kv] => Char.ofNat 39 :: kv.1 ++ Char.ofNat 39 :: ':' :: ' ' :: pyRepr kv.2
  | kv :: kv2 :: xs =>
    (Char.ofNat 39 :: kv.1 ++ Char.ofNat 39 :: ':' :: ' ' :: pyRepr kv.2) ++
      ',' :: ' ' :: pyReprObj (kv2 :: xs)

end

/-- Python str(v) for a decoded JSON value: strings render as themselves,
everything else as its repr. -/
def pyStrOf : Json → PyStr
  | .str s => s
  | .null => pyRepr .null
  | .bool b => pyRepr (.bool b)
  | .num n => pyRepr (.num n)
  | .arr xs => pyRepr (.arr xs)
  | .obj kvs => pyRepr (.obj kvs)

/-- One element of a multimodal content list: a dict with optional "type" and
"text" fields.  (Only string-valued fields occur in the claims.) -/
structure Part where
  type : Option PyStr
  text : Option PyStr

/-- Content of a raw inbound message: either a Python list of typed parts, or
any other value, represented by its str() rendering — the source applies
str(content) to every non-list content, and absent content defaults to "". -/
inductive RawContent where
  | plain (s : PyStr)
  | parts (ps : List Part)

/-- A raw inbound message: a dict with optional "role" and "content" fields. -/
structure RawMessage where
  role : Option PyStr
  content : RawContent

/-- A shaped outbound message. -/
structure ChatMessage where
  role : PyStr
  content : PyStr

/-- The fixed placeholder substituted for image parts (source line 157). -/
def imgPlaceholder : PyStr :=
  strL "[Image content removed - not supported by Docker Model Runner]"

/-- Fragments contributed by one content part (source lines 152-157): the text
of a "text" part (defaulting to ""), the placeholder for an "image_url" part,
nothing for any other part type. -/
def partFrags (p : Part) : List PyStr :=
  if p.type = some (strL "text") then [p.text.getD []]
  else if p.type = some (strL "image_url") then [imgPlaceholder]
  else []

/-- Shaped content of one message (source lines 147-162): list content is
joined part fragments, stripped; any other content is its str() rendering. -/
def shapeContent : RawContent → PyStr
  | .plain s => s
  | .parts ps => pyStrip (sjoin (List.flatten (ps.map partFrags)))

/-- One shaped message (source lines 146-162): role defaults to "user". -/
def shapeMessage (m : RawMessage) : ChatMessage :=
  ⟨m.role.getD (strL "user"), shapeContent m.content⟩

/-- Pipe.process_messages (source lines 139-168): shape each message in order,
keeping only those whose shaped content is non-empty. -/
def process_messages : List RawMessage → List ChatMessage
  | [] => []
  | m :: rest =>
    let pm := shapeMessage m
    if pm.content.isEmpty then process_messages rest
    else pm :: process_messages rest

/-- Everything after the first "." of the string, when a "." occurs — Python
model_id.split(".", 1)[-1] guarded by `"." in model_id`. -/
def afterFirstDot : PyStr → Option PyStr
  | [] => none
  | c :: cs => if c = '.' then some cs else afterFirstDot cs

/-- Pipe.process_model_id (source lines 128-137). -/
def process_model_id (model_id : PyStr) : PyStr :=
  match afterFirstDot model_id with
  | some s => s
  | none => model_id

/-- A catalog entry as built by get_dmr_models; field values are whatever JSON
values the upstream response supplied. -/
structure ModelDescriptor where
  id : Json
  name : Json

/-- The mutable catalog state of Pipe: _model_cache and _model_cache_time. -/
structure CatalogState where
  model_cache : Option (List ModelDescriptor)
  model_cache_time : Int

/-- Python iteration `for x in v` over a decoded JSON value: elements of a
list, characters of a string, keys of a dict; TypeError otherwise. -/
def pyIter : Json → Except PyErr (List Json)
  | .arr xs => .ok xs
  | .str s => .ok (s.map (fun c => .str [c]))
  | .obj kvs => .ok (kvs.map (fun kv => .str kv.1))
  | _ => .error (.typeError (strL "object is not iterable"))

/-- Descriptors contributed by one element of a bare-list response body
(source lines 104-111): strings map to id = name = the string, dicts to their
"id"/"name" fields with the documented fallbacks, anything else is skipped. -/
def listElemDescr (m : Json) : List ModelDescriptor :=
  match m with
  | .str s => [⟨.str s, .str s⟩]
  | .obj kvs =>
    let fallback : Json := .str (pyStrOf (.obj kvs))
    let i := (jlookup (strL "id") kvs).getD fallback
    let n := (jlookup (strL "name") kvs).getD ((jlookup (strL "id") kvs).getD fallback)
    [⟨i, n⟩]
  | _ => []

/-- The response-shape dispatch of get_dmr_models (source lines 93-111):
builds available_models, propagating any Python exception raised while doing
so (for example .get on a non-dict element of data["data"]). -/
def parse_models (data : Json) : Except PyErr (List ModelDescriptor) :=
  match data with
  | .obj kvs =>
    match jlookup (strL "data") kvs with
    | some d =>
      (pyIter d).bind (fun elems =>
        elems.mapM (fun m =>
          (pyGet (strL "id") (.str (strL "unknown")) m).map (fun i => (⟨i, i⟩ : ModelDescriptor))))
    | none => .ok []
  | .arr xs => .ok (List.flatten (xs.map listElemDescr))
  | _ => .ok []

/-- Outcome of the GET {base}/models call: `raised` covers a requests
exception, a raise_for_status on a non-2xx status, and a response.json()
decode failure — all reach the same `except Exception` handler; `ok` carries
the decoded body. -/
inductive FetchOutcome where
  | raised (msg : PyStr)
  | ok (data : Json)

/-- Result of one get_dmr_models call: the catalog state afterwards, the
returned list, and whether a network request was issued. -/
structure FetchResult where
  state : CatalogState
  result : List ModelDescriptor
  fetched : Bool

/-- The synthetic descriptor returned on a fetch failure (source line 120). -/
def errDescriptor (msg : PyStr) : ModelDescriptor :=
  ⟨.str (strL "error"), .str (strL "Could not fetch models: " ++ msg)⟩

/-- Pipe.get_dmr_models (source lines 73-120).  `now` is the value of
time.time(); `outcome` is what the network does if a request is issued. -/
def get_dmr_models (ttl : Int) (st : CatalogState) (now : Int)
    (force_refresh : Bool) (outcome : FetchOutcome) : FetchResult :=
  if !force_refresh && st.model_cache.isSome && decide (now - st.model_cache_time < ttl) then
    ⟨st, st.model_cache.getD [], false⟩
  else
    match outcome with
    | .raised msg => ⟨st, [errDescriptor msg], true⟩
    | .ok data =>
      match parse_models data with
      | .error e => ⟨st, [errDescriptor (pyErrStr e)], true⟩
      | .ok models => ⟨⟨some models, now⟩, models, true⟩

/-- Outcome of the body of one try of a retry loop. -/
inductive TryResult (α : Type) where
  | ok (v : α)
  | reqExc (msg : PyStr)
  | genExc (msg : PyStr)

/-- One requests.post outcome in non-streaming mode: either the call raised a
RequestException with the given message, or a response arrived with a status,
a text and a body.  A body of `.error m` models response.json() raising —
requests raises its JSONDecodeError there, which subclasses RequestException,
hence it lands in the retry branch below. -/
inductive HttpAttempt where
  | raised (msg : PyStr)
  | response (status : Nat) (text : PyStr) (body : Except PyStr Json)

/-- The message of the exception raised on a non-200 status (source lines
182 and 224). -/
def strHttpError (status : Nat) (text : PyStr) : PyStr :=
  strL "HTTP Error " ++ natStr status ++ strL ": " ++ text

/-- The terminal error value built by the general exception handlers
(source lines 215 and 244). -/
def strError (msg : PyStr) : PyStr := strL "Error: " ++ msg

/-- The terminal error value built when the final attempt fails with a
RequestException (source lines 210 and 239). -/
def strReqFailed (rc : Nat) (msg : PyStr) : PyStr :=
  strL "Error: Request failed after " ++ natStr (rc + 1) ++ strL " attempts: " ++ msg

/-- The inbound request body: a dict with the fields the source reads, plus
all remaining fields, which it never touches.  The model field is modeled as
an optional string (a non-string model value would raise before dispatch and
is outside every claim). -/
structure Body where
  model : Option PyStr
  messages : Option (List RawMessage)
  stream : Option Json
  input : Option Json
  prompt : Option Json
  rest : List (PyStr × Json)

/-- The success-path body handling of non_stream_response (source lines
226-234), propagating Python dynamic failures as exceptions. -/
def extract_choices (data : Json) : Except PyErr Json :=
  (pyContains (strL "choices") data).bind (fun hasChoices =>
    if hasChoices then
      (pyIndexKey (strL "choices") data).bind (fun cs =>
        (pyLen cs).bind (fun n =>
          if n > 0 then
            (pyIndexZero cs).bind (fun c0 =>
              (pyGet (strL "message") (.obj []) c0).bind (fun message =>
                pyGet (strL "content") (.str (strL "No response generated")) message))
          else .ok (.str (pyStrOf data))))
    else .ok (.str (pyStrOf data)))

/-- The try-block of one non-streaming attempt (source lines 221-234): a
RequestException from the post call retries; a non-200 status raises a plain
Exception; a 200 response is parsed and its first choice's message content
returned, with any dynamic failure landing in the general handler. -/
def non_stream_attempt (h : HttpAttempt) : TryResult Json :=
  match h with
  | .raised m => .reqExc m
  | .response status text body =>
    if status ≠ 200 then .genExc (strHttpError status text)
    else
      match body with
      | .error m => .reqExc m
      | .ok data =>
        match extract_choices data with
        | .ok v => .ok v
        | .error e => .genExc (pyErrStr e)

/-- Trace of one non_stream_response run: the returned value (`none` would
mean the loop fell through, which cannot happen when iteration starts at
attempt 0), the backoff sleep durations in order, and the payload passed to
every HTTP call issued. -/
structure RelayRun where
  result : Option Json
  sleeps : List Nat
  calls : List Body

/-- The retry loop of non_stream_response (source lines 220-244), iterating
over the remaining attempt indices of Python's range(RETRY_COUNT + 1).  In
the RequestException branch the source tests attempt == RETRY_COUNT, builds
the final error value and lets the (then exhausted) loop end; reaching index
RETRY_COUNT always ends the run, so that test translates to stopping there. -/
def non_stream_go (rc : Nat) (env : Nat → HttpAttempt) (payload : Body) :
    List Nat → RelayRun
  | [] => ⟨none, [], []⟩
  | attempt :: restA =>
    match non_stream_attempt (env attempt) with
    | .ok v => ⟨some v, [], [payload]⟩
    | .genExc m => ⟨some (.str (strError m)), [], [payload]⟩
    | .reqExc m =>
      if attempt = rc then ⟨some (.str (strReqFailed rc m)), [], [payload]⟩
      else
        let t := non_stream_go rc env payload restA
        ⟨t.result, 2 ^ attempt :: t.sleeps, payload :: t.calls⟩

/-- Pipe.non_stream_response (source lines 218-244), with RETRY_COUNT = rc. -/
def non_stream_response (rc : Nat) (env : Nat → HttpAttempt) (payload : Body) : RelayRun :=
  non_stream_go rc env payload (List.range (rc + 1))

/-- Effect of one decoded SSE line inside the line loop (source lines
184-205). -/
inductive LineEff where
  | cont (frag : Option Json)
  | stop
  | abort (msg : PyStr)

/-- Handling of one parsed SSE JSON payload (source lines 194-205), with
Python dynamic failures as exceptions.  The condition
`"delta" in choice and "content" in choice["delta"]` short-circuits, and the
finish_reason branch runs only when it is false. -/
def sse_handle_exc (data : Json) : Except PyErr LineEff :=
  (pyContains (strL "choices") data).bind (fun has =>
    if has then
      (pyIndexKey (strL "choices") data).bind (fun cs =>
        (pyLen cs).bind (fun n =>
          if n > 0 then
            (pyIndexZero cs).bind (fun choice =>
              (pyContains (strL "delta") choice).bind (fun hasDelta =>
                (if hasDelta then
                  (pyIndexKey (strL "delta") choice).bind
                    (fun delta => pyContains (strL "content") delta)
                else .ok false).bind (fun hasDC =>
                  if hasDC then
                    (pyIndexKey (strL "delta") choice).bind (fun delta =>
                      (pyIndexKey (strL "content") delta).map (fun content =>
                        if pyTruthy content then .cont (some content) else .cont none))
                  else
                    (pyGet (strL "finish_reason") .null choice).map (fun fr =>
                      if pyTruthy fr then .stop else .cont none))))
          else .ok (.cont none)))
    else .ok (.cont none))

/-- Handling of one parsed SSE payload with the source's handlers applied:
KeyError is caught and skipped (source line 204), every other Python failure
escapes to the outer general handler. -/
def sse_handle (data : Json) : LineEff :=
  match sse_handle_exc data with
  | .ok eff => eff
  | .error (.keyError _) => .cont none
  | .error e => .abort (pyErrStr e)

/-- Handling of one raw line from response.iter_lines (source lines 184-205).
`jloads` models json.loads; a `.error` result is a json.JSONDecodeError,
which the inner handler catches and skips (source line 202). -/
def process_sse_line (jloads : PyStr → Except PyStr Json) (line : PyStr) : LineEff :=
  if line.isEmpty then .cont none
  else if !leadsWith (strL "data: ") line then .cont none
  else
    let dataContent := line.drop 6
    if pyStrip dataContent = strL "[DONE]" then .stop
    else if (pyStrip dataContent).isEmpty then .cont none
    else
      match jloads dataContent with
      | .error _ => .cont none
      | .ok data => sse_handle data

/-- How the line loop of one streaming attempt ended. -/
inductive LoopEnd where
  | exhausted
  | broke
  | aborted (msg : PyStr)

/-- Runs the line loop, collecting the fragments yielded in order. -/
def run_lines (jloads : PyStr → Except PyStr Json) : List PyStr → List Json × LoopEnd
  | [] => ([], .exhausted)
  | line :: restL =>
    match process_sse_line jloads line with
    | .stop => ([], .broke)
    | .abort m => ([], .aborted m)
    | .cont frag =>
      let t := run_lines jloads restL
      (frag.toList ++ t.1, t.2)

/-- One requests.post outcome in streaming mode: either the call raised, or a
response arrived.  `lines` is what iter_lines delivers; `midErr = some m`
means iter_lines raises a RequestException with message m after those lines
(a mid-stream transport failure), which is reached only if the loop consumes
all the lines without breaking. -/
inductive StreamAttempt where
  | raised (msg : PyStr)
  | response (status : Nat) (text : PyStr) (lines : List PyStr) (midErr : Option PyStr)

/-- Outcome of one streaming attempt: the fragments yielded during it, and
how its try-block ended. -/
inductive AttemptOut where
  | success (frags : List Json)
  | reqexc (frags : List Json) (msg : PyStr)
  | genexc (frags : List Json) (msg : PyStr)

/-- The try-block of one streaming attempt (source lines 173-206). -/
def stream_attempt (jloads : PyStr → Except PyStr Json) (a : StreamAttempt) : AttemptOut :=
  match a with
  | .raised m => .reqexc [] m
  | .response status text lines midErr =>
    if status ≠ 200 then .genexc [] (strHttpError status text)
    else
      match run_lines jloads lines with
      | (frags, .broke) => .success frags
      | (frags, .aborted m) => .genexc frags m
      | (frags, .exhausted) =>
        match midErr with
        | none => .success frags
        | some m => .reqexc frags m

/-- Trace of one stream_response run: every fragment the generator yields in
order, the backoff sleeps, and the payload of every HTTP call issued. -/
structure StreamRun where
  frags : List Json
  sleeps : List Nat
  calls : List Body

/-- The retry loop of stream_response (source lines 172-216): a general
exception yields the error fragment and breaks; a RequestException on the
final attempt yields the final error fragment, otherwise sleeps and retries;
a successful attempt returns.  Fragments yielded before a mid-stream failure
stay delivered to the consumer. -/
def stream_go (jloads : PyStr → Except PyStr Json) (rc : Nat)
    (env : Nat → StreamAttempt) (payload : Body) : List Nat → StreamRun
  | [] => ⟨[], [], []⟩
  | attempt :: restA =>
    match stream_attempt jloads (env attempt) with
    | .success fs => ⟨fs, [], [payload]⟩
    | .genexc fs m => ⟨fs ++ [.str (strError m)], [], [payload]⟩
    | .reqexc fs m =>
      if attempt = rc then ⟨fs ++ [.str (strReqFailed rc m)], [], [payload]⟩
      else
        let t := stream_go jloads rc env payload restA
        ⟨fs ++ t.frags, 2 ^ attempt :: t.sleeps, payload :: t.calls⟩

/-- Pipe.stream_response (source lines 170-216), with RETRY_COUNT = rc. -/
def stream_response (jloads : PyStr → Except PyStr Json) (rc : Nat)
    (env : Nat → StreamAttempt) (payload : Body) : StreamRun :=
  stream_go jloads rc env payload (List.range (rc + 1))

/-- The configuration valves the orchestration path reads. -/
structure Valves where
  DMR_BASE_URL : PyStr
  DMR_ENGINE_SUFFIX : PyStr
  RETRY_COUNT : Nat

/-- Python s.rstrip("/"): remove trailing slashes. -/
def rstripSlash (s : PyStr) : PyStr :=
  (s.reverse.dropWhile (fun c => c = '/')).reverse

/-- Python s.endswith(suf). -/
def trailsWith (suf s : PyStr) : Bool :=
  leadsWith suf.reverse s.reverse

/-- Pipe.get_dmr_url (source lines 66-71). -/
def get_dmr_url (v : Valves) : PyStr :=
  let base := rstripSlash v.DMR_BASE_URL
  if trailsWith v.DMR_ENGINE_SUFFIX base then base else base ++ v.DMR_ENGINE_SUFFIX

/-- A shaped message written back into the body: the dict with the message's
role and its plain string content. -/
def chatToRaw (c : ChatMessage) : RawMessage := ⟨some c.role, .plain c.content⟩

/-- What Pipe.pipe does with a request: an early user-visible error string,
or a dispatch with the target url, the streaming flag and the payload. -/
inductive PipeResult where
  | errorStr (s : PyStr)
  | dispatched (url : PyStr) (streaming : Bool) (payload : Body)

/-- Result of Pipe.pipe up to the dispatch: the final state of the caller's
body mapping, which the source mutates in place, and the outcome.  The
dispatched payload is that very mapping, passed to stream_response or
non_stream_response, which reuse it for every attempt. -/
structure PipeOut where
  body : Body
  outcome : PipeResult

/-- Pipe.pipe (source lines 246-290): normalize the model id (error if the
result is empty), write it back into the body, replace the messages field
with the shaped messages when present, read the stream flag, classify the
endpoint by field presence, and dispatch — streaming only for chat requests
with a truthy stream flag. -/
def pipe (v : Valves) (body : Body) : PipeOut :=
  let model_id := process_model_id (body.model.getD [])
  if model_id.isEmpty then ⟨body, .errorStr (strL "Error: No model specified")⟩
  else
    let body1 : Body := { body with model := some model_id }
    let body2 : Body :=
      match body1.messages with
      | some ms => { body1 with messages := some ((process_messages ms).map chatToRaw) }
      | none => body1
    let streamFlag := pyTruthy (body2.stream.getD (.bool false))
    let endpoint : Option PyStr :=
      if body2.messages.isSome then some (strL "/chat/completions")
      else if body2.input.isSome then some (strL "/embeddings")
      else if body2.prompt.isSome then some (strL "/completions")
      else none
    match endpoint with
    | none => ⟨body2, .errorStr (strL "Error: Unable to determine request type")⟩
    | some ep =>
      let url := get_dmr_url v ++ ep
      ⟨body2, .dispatched url (streamFlag && (ep == strL "/chat/completions")) body2⟩


/-- Fixture: an empty request body used by concrete witnesses. -/
def bodyW : Body := ⟨none, none, none, none, none, []⟩

/-- Fixture: a json.loads stand-in that fails on every input. -/
def jlNone : PyStr → Except PyStr Json := fun _ => .error (strL "invalid json")

lemma afterFirstDot_append (pre suf : PyStr) (h : '.' ∉ pre) :
    afterFirstDot (pre ++ '.' :: suf) = some suf := by
  induction pre with
  | nil => simp [afterFirstDot]
  | cons c cs ih =>
    have hc : c ≠ '.' := fun hc => h (hc ▸ List.mem_cons_self c cs)
    simp only [List.cons_append, afterFirstDot, if_neg hc]
    exact ih (fun hm => h (List.mem_cons_of_mem c hm))

lemma afterFirstDot_none (s : PyStr) (h : '.' ∉ s) : afterFirstDot s = none := by
  induction s with
  | nil => rfl
  | cons c cs ih =>
    have hc : c ≠ '.' := fun hc => h (hc ▸ List.mem_cons_self c cs)
    simp only [afterFirstDot, if_neg hc]
    exact ih (fun hm => h (List.mem_cons_of_mem c hm))

/-- C7: for every model id containing the "." separator, process_model_id
returns exactly the suffix after the first separator (everything up to and
including the first "." is discarded); a model id without a separator is
returned unchanged. -/
theorem C7_model_id_normalization :
    (∀ pre suf : PyStr, '.' ∉ pre → process_model_id (pre ++ '.' :: suf) = suf) ∧
    (∀ s : PyStr, '.' ∉ s → process_model_id s = s) := by
  constructor
  · intro pre suf h
    simp [process_model_id, afterFirstDot_append pre suf h]
  · intro s h
    simp [process_model_id, afterFirstDot_none s h]

/-- Witness for C7 at concrete inputs: "dmr.llama3.v2" maps to the suffix
after the first dot, and "llama3" is unchanged. -/
theorem C7_model_id_normalization_witness :
    process_model_id (strL "dmr" ++ '.' :: strL "llama3.v2") = strL "llama3.v2" ∧
    process_model_id (strL "llama3") = strL "llama3" :=
  ⟨C7_model_id_normalization.1 (strL "dmr") (strL "llama3.v2") (by decide),
   C7_model_id_normalization.2 (strL "llama3") (by decide)⟩

lemma process_messages_eq_filter (msgs : List RawMessage) :
    process_messages msgs =
      (msgs.map shapeMessage).filter (fun c => !c.content.isEmpty) := by
  induction msgs with
  | nil => rfl
  | cons m rest ih =>
    by_cases h : (shapeMessage m).content.isEmpty
    · simp [process_messages, h, List.filter_cons, ih]
    · simp [process_messages, h, List.filter_cons, ih]

/-- C6: process_messages forwards no message with empty content — it equals
the filter of the shaped messages keeping the non-empty ones (so the relative
order of the survivors is preserved), every element of the output has
non-empty content, and the output length is the input length minus the number
of messages that shaped to the empty string. -/
theorem C6_empty_messages_dropped (msgs : List RawMessage) :
    process_messages msgs =
      (msgs.map shapeMessage).filter (fun c => !c.content.isEmpty) ∧
    (process_messages msgs).all (fun c => !c.content.isEmpty) = true ∧
    (process_messages msgs).length =
      msgs.length - (msgs.filter (fun mm => (shapeMessage mm).content.isEmpty)).length := by
  refine ⟨process_messages_eq_filter msgs, ?_, ?_⟩
  · rw [process_messages_eq_filter msgs, List.all_eq_true]
    intro c hc
    exact (List.mem_filter.mp hc).2
  · induction msgs with
    | nil => rfl
    | cons m rest ih =>
      have hle : (rest.filter (fun mm => (shapeMessage mm).content.isEmpty)).length ≤
          rest.length := List.length_filter_le _ _
      by_cases h : (shapeMessage m).content.isEmpty
      · simp only [process_messages, h, if_pos, List.filter_cons, List.length_cons]
        simp [h, ih]
      · simp only [process_messages, List.filter_cons, List.length_cons]
        simp [h, ih]
        omega

/-- C3: a list_models call with force_refresh = false, an existing cache and
age strictly below the TTL returns the cached sequence exactly as stored,
issues no network request, and leaves the cache contents and timestamp
unchanged. -/
theorem C3_fresh_cache_hit (ttl : Int) (st : CatalogState) (now : Int)
    (outcome : FetchOutcome) (cache : List ModelDescriptor)
    (hc : st.model_cache = some cache)
    (hfresh : now - st.model_cache_time < ttl) :
    get_dmr_models ttl st now false outcome = ⟨st, cache, false⟩ := by
  simp [get_dmr_models, hc, hfresh]

/-- Witness for C3: a cache of age 100 with TTL 300 is served as is. -/
theorem C3_fresh_cache_hit_witness :
    get_dmr_models 300 ⟨some [⟨.str (strL "m1"), .str (strL "m1")⟩], 100⟩ 200 false
        (.raised (strL "network down")) =
      ⟨⟨some [⟨.str (strL "m1"), .str (strL "m1")⟩], 100⟩,
        [⟨.str (strL "m1"), .str (strL "m1")⟩], false⟩ :=
  C3_fresh_cache_hit 300 ⟨some [⟨.str (strL "m1"), .str (strL "m1")⟩], 100⟩ 200
    (.raised (strL "network down")) [⟨.str (strL "m1"), .str (strL "m1")⟩] rfl (by decide)

/-- C4: every catalog fetch that fails — the request raised (network error,
non-2xx raise_for_status, body decode failure) or the response-shape walk
raised — leaves the cache contents and timestamp unchanged and returns
exactly the single synthetic descriptor with id "error" and name
"Could not fetch models: <detail>"; nothing is raised to the caller. -/
theorem C4_failed_fetch_leaves_cache (ttl : Int) (st : CatalogState) (now : Int)
    (force : Bool) :
    (∀ msg, (get_dmr_models ttl st now force (.raised msg)).fetched = true →
      (get_dmr_models ttl st now force (.raised msg)).state = st ∧
      (get_dmr_models ttl st now force (.raised msg)).result = [errDescriptor msg]) ∧
    (∀ data e, parse_models data = .error e →
      (get_dmr_models ttl st now force (.ok data)).fetched = true →
      (get_dmr_models ttl st now force (.ok data)).state = st ∧
      (get_dmr_models ttl st now force (.ok data)).result =
        [errDescriptor (pyErrStr e)]) := by
  by_cases h : (!force && st.model_cache.isSome &&
      decide (now - st.model_cache_time < ttl)) = true
  · constructor
    · intro msg hf
      rw [get_dmr_models, if_pos h] at hf
      simp at hf
    · intro data e _ hf
      rw [get_dmr_models, if_pos h] at hf
      simp at hf
  · constructor
    · intro msg _
      rw [get_dmr_models, if_neg h]
      exact ⟨rfl, rfl⟩
    · intro data e hpe _
      rw [get_dmr_models, if_neg h]
      simp [hpe]

/-- Witness for C4: a raised fetch with no prior cache, and a body whose
"data" list holds a non-dict element (Python .get on it raises), both return
the synthetic descriptor and leave the state alone. -/
theorem C4_failed_fetch_leaves_cache_witness :
    (get_dmr_models 300 ⟨some [], 7⟩ 400 true (.raised (strL "boom"))).state =
      ⟨some [], 7⟩ ∧
    (get_dmr_models 300 ⟨some [], 7⟩ 400 true (.raised (strL "boom"))).result =
      [errDescriptor (strL "boom")] ∧
    (get_dmr_models 300 ⟨some [], 7⟩ 400 true
        (.ok (.obj [(strL "data", .arr [.num 3])]))).state = ⟨some [], 7⟩ := by
  obtain ⟨h1, h2⟩ := C4_failed_fetch_leaves_cache 300 ⟨some [], 7⟩ 400 true
  refine ⟨(h1 (strL "boom") rfl).1, (h1 (strL "boom") rfl).2, ?_⟩
  exact (h2 (.obj [(strL "data", .arr [.num 3])])
    (.attrError (strL "object has no attribute get")) rfl rfl).1


lemma non_stream_go_cons_req (rc : Nat) (env : Nat → HttpAttempt) (p : Body)
    (a : Nat) (L : List Nat) (msg : PyStr)
    (ha : a ≠ rc) (he : env a = .raised msg) :
    non_stream_go rc env p (a :: L) =
      ⟨(non_stream_go rc env p L).result,
        2 ^ a :: (non_stream_go rc env p L).sleeps,
        p :: (non_stream_go rc env p L).calls⟩ := by
  simp [non_stream_go, he, non_stream_attempt, ha]

lemma stream_go_cons_req (jl : PyStr → Except PyStr Json) (rc : Nat)
    (env : Nat → StreamAttempt) (p : Body) (a : Nat) (L : List Nat) (msg : PyStr)
    (ha : a ≠ rc) (he : env a = .raised msg) :
    stream_go jl rc env p (a :: L) =
      ⟨(stream_go jl rc env p L).frags,
        2 ^ a :: (stream_go jl rc env p L).sleeps,
        p :: (stream_go jl rc env p L).calls⟩ := by
  simp [stream_go, he, stream_attempt, ha]

lemma non_stream_go_allfail (rc : Nat) (env : Nat → HttpAttempt) (m : Nat → PyStr)
    (p : Body) :
    ∀ n k, k + n = rc → (∀ i, k ≤ i → i ≤ rc → env i = .raised (m i)) →
    non_stream_go rc env p (List.range' k (n + 1)) =
      ⟨some (.str (strReqFailed rc (m rc))), (List.range' k n).map (fun i => 2 ^ i),
        List.replicate (n + 1) p⟩ := by
  intro n
  induction n with
  | zero =>
    intro k hk hall
    have hkrc : k = rc := by omega
    subst hkrc
    have he := hall k (le_refl _) (le_refl _)
    simp [List.range', non_stream_go, he, non_stream_attempt]
  | succ n ih =>
    intro k hk hall
    have hne : k ≠ rc := by omega
    have he := hall k (le_refl _) (by omega)
    have ihk := ih (k + 1) (by omega) (fun i h1 h2 => hall i (by omega) h2)
    have hrange : List.range' k (n + 1 + 1) = k :: List.range' (k + 1) (n + 1) := rfl
    rw [hrange, non_stream_go_cons_req rc env p k _ (m k) hne he, ihk]
    have hrange2 : List.range' k (n + 1) = k :: List.range' (k + 1) n := rfl
    simp [hrange2, List.replicate_succ]

lemma stream_go_allfail (jl : PyStr → Except PyStr Json) (rc : Nat)
    (env : Nat → StreamAttempt) (m : Nat → PyStr) (p : Body) :
    ∀ n k, k + n = rc → (∀ i, k ≤ i → i ≤ rc → env i = .raised (m i)) →
    stream_go jl rc env p (List.range' k (n + 1)) =
      ⟨[.str (strReqFailed rc (m rc))], (List.range' k n).map (fun i => 2 ^ i),
        List.replicate (n + 1) p⟩ := by
  intro n
  induction n with
  | zero =>
    intro k hk hall
    have hkrc : k = rc := by omega
    subst hkrc
    have he := hall k (le_refl _) (le_refl _)
    simp [List.range', stream_go, he, stream_attempt]
  | succ n ih =>
    intro k hk hall
    have hne : k ≠ rc := by omega
    have he := hall k (le_refl _) (by omega)
    have ihk := ih (k + 1) (by omega) (fun i h1 h2 => hall i (by omega) h2)
    have hrange : List.range' k (n + 1 + 1) = k :: List.range' (k + 1) (n + 1) := rfl
    rw [hrange, stream_go_cons_req jl rc env p k _ (m k) hne he, ihk]
    have hrange2 : List.range' k (n + 1) = k :: List.range' (k + 1) n := rfl
    simp [hrange2, List.replicate_succ]

lemma non_stream_go_calls_le (rc : Nat) (env : Nat → HttpAttempt) (p : Body) :
    ∀ l : List Nat, ((non_stream_go rc env p l).calls).length ≤ l.length := by
  intro l
  induction l with
  | nil => simp [non_stream_go]
  | cons a restA ih =>
    simp only [non_stream_go, List.length_cons]
    cases non_stream_attempt (env a) with
    | ok v => simp
    | genExc m => simp
    | reqExc m =>
      by_cases ha : a = rc
      · simp [ha]
      · simp only [if_neg ha]
        simpa using Nat.succ_le_succ ih

lemma stream_go_calls_le (jl : PyStr → Except PyStr Json) (rc : Nat)
    (env : Nat → StreamAttempt) (p : Body) :
    ∀ l : List Nat, ((stream_go jl rc env p l).calls).length ≤ l.length := by
  intro l
  induction l with
  | nil => simp [stream_go]
  | cons a restA ih =>
    simp only [stream_go, List.length_cons]
    cases stream_attempt jl (env a) with
    | success fs => simp
    | genexc fs m => simp
    | reqexc fs m =>
      by_cases ha : a = rc
      · simp [ha]
      · simp only [if_neg ha]
        simpa using Nat.succ_le_succ ih

/-- C1: in both dispatch modes, when every attempt fails with a transient
network failure (a RequestException), the loop makes exactly retry_count + 1
attempts, sleeps 2^attempt time units after each non-final one (1, 2, 4, ...),
and ends with the textual value "Error: Request failed after <n> attempts: ..."
returned (buffered) or yielded as the fragment (streaming) rather than raised;
in every run at most retry_count + 1 attempts are made; and a transient
failure on a non-final attempt always sleeps 2^attempt and then proceeds to
the next attempt. -/
theorem C1_transient_retry_backoff (rc : Nat) (env : Nat → HttpAttempt)
    (senv : Nat → StreamAttempt) (jl : PyStr → Except PyStr Json)
    (m sm : Nat → PyStr) (p : Body)
    (h : ∀ i, i ≤ rc → env i = .raised (m i))
    (hs : ∀ i, i ≤ rc → senv i = .raised (sm i)) :
    non_stream_response rc env p =
      ⟨some (.str (strReqFailed rc (m rc))), (List.range rc).map (fun i => 2 ^ i),
        List.replicate (rc + 1) p⟩ ∧
    stream_response jl rc senv p =
      ⟨[.str (strReqFailed rc (sm rc))], (List.range rc).map (fun i => 2 ^ i),
        List.replicate (rc + 1) p⟩ ∧
    (∀ (env2 : Nat → HttpAttempt) (p2 : Body),
      ((non_stream_response rc env2 p2).calls).length ≤ rc + 1) ∧
    (∀ (senv2 : Nat → StreamAttempt) (p2 : Body),
      ((stream_response jl rc senv2 p2).calls).length ≤ rc + 1) ∧
    (∀ (a : Nat) (restA : List Nat) (msg : PyStr) (env2 : Nat → HttpAttempt) (p2 : Body),
      a ≠ rc → env2 a = .raised msg →
      non_stream_go rc env2 p2 (a :: restA) =
        ⟨(non_stream_go rc env2 p2 restA).result,
          2 ^ a :: (non_stream_go rc env2 p2 restA).sleeps,
          p2 :: (non_stream_go rc env2 p2 restA).calls⟩) ∧
    (∀ (a : Nat) (restA : List Nat) (msg : PyStr) (senv2 : Nat → StreamAttempt) (p2 : Body),
      a ≠ rc → senv2 a = .raised msg →
      stream_go jl rc senv2 p2 (a :: restA) =
        ⟨(stream_go jl rc senv2 p2 restA).frags,
          2 ^ a :: (stream_go jl rc senv2 p2 restA).sleeps,
          p2 :: (stream_go jl rc senv2 p2 restA).calls⟩) := by
  refine ⟨?_, ?_, ?_, ?_, ?_, ?_⟩
  · rw [non_stream_response, List.range_eq_range', List.range_eq_range']
    exact non_stream_go_allfail rc env m p rc 0 (by omega) (fun i _ h2 => h i h2)
  · rw [stream_response, List.range_eq_range', List.range_eq_range']
    exact stream_go_allfail jl rc senv sm p rc 0 (by omega) (fun i _ h2 => hs i h2)
  · intro env2 p2
    simpa using non_stream_go_calls_le rc env2 p2 (List.range (rc + 1))
  · intro senv2 p2
    simpa using stream_go_calls_le jl rc senv2 p2 (List.range (rc + 1))
  · intro a restA msg env2 p2 ha he
    exact non_stream_go_cons_req rc env2 p2 a restA msg ha he
  · intro a restA msg senv2 p2 ha he
    exact stream_go_cons_req jl rc senv2 p2 a restA msg ha he

/-- Witness for C1 at retry_count = 2 with three consecutive connection
failures: exactly 3 attempts, backoff sleeps of 1 then 2 time units, the
final error value returned or yielded. -/
theorem C1_transient_retry_backoff_witness :
    non_stream_response 2 (fun _ => .raised (strL "conn")) bodyW =
      ⟨some (.str (strReqFailed 2 (strL "conn"))), [1, 2], [bodyW, bodyW, bodyW]⟩ ∧
    stream_response jlNone 2 (fun _ => .raised (strL "conn")) bodyW =
      ⟨[.str (strReqFailed 2 (strL "conn"))], [1, 2], [bodyW, bodyW, bodyW]⟩ := by
  obtain ⟨h1, h2, -⟩ := C1_transient_retry_backoff 2 (fun _ => .raised (strL "conn"))
    (fun _ => .raised (strL "conn")) jlNone (fun _ => strL "conn") (fun _ => strL "conn")
    bodyW (fun _ _ => rfl) (fun _ _ => rfl)
  exact ⟨h1.trans (by rfl), h2.trans (by rfl)⟩

/-- C2: in both dispatch modes, a response whose status is not a 2xx success
is surfaced on that same attempt as the terminal value
"Error: HTTP Error <status>: <text>" — returned in buffered mode, yielded as
the final fragment in streaming mode — with no further attempts and no
backoff sleep, whatever attempts would have remained. -/
theorem C2_non2xx_terminal (rc : Nat) (env : Nat → HttpAttempt)
    (senv : Nat → StreamAttempt) (jl : PyStr → Except PyStr Json) (p : Body)
    (a : Nat) (restA : List Nat) (status : Nat) (text : PyStr)
    (rbody : Except PyStr Json) (lines : List PyStr) (midErr : Option PyStr)
    (hst : status < 200 ∨ 300 ≤ status)
    (henv : env a = .response status text rbody)
    (hsenv : senv a = .response status text lines midErr) :
    non_stream_go rc env p (a :: restA) =
      ⟨some (.str (strError (strHttpError status text))), [], [p]⟩ ∧
    stream_go jl rc senv p (a :: restA) =
      ⟨[.str (strError (strHttpError status text))], [], [p]⟩ := by
  have h200 : status ≠ 200 := by omega
  constructor
  · simp [non_stream_go, henv, non_stream_attempt, h200]
  · simp [stream_go, hsenv, stream_attempt, h200]

/-- Witness for C2: a 404 on the first of three allowed attempts ends both
modes at once with the HTTP error value, no sleeps, one call. -/
theorem C2_non2xx_terminal_witness :
    non_stream_go 2 (fun _ => .response 404 (strL "not found") (.error (strL "x")))
        bodyW [0, 1, 2] =
      ⟨some (.str (strError (strHttpError 404 (strL "not found")))), [], [bodyW]⟩ ∧
    stream_go jlNone 2 (fun _ => .response 404 (strL "not found") [] none)
        bodyW [0, 1, 2] =
      ⟨[.str (strError (strHttpError 404 (strL "not found")))], [], [bodyW]⟩ :=
  C2_non2xx_terminal 2 _ _ jlNone bodyW 0 [1, 2] 404 (strL "not found")
    (.error (strL "x")) [] none (Or.inr (by omega)) rfl rfl

/-- C9: the success path runs only on a status of exactly 200.  Any other
status — including 2xx successes such as 201 or 204 — becomes the terminal
value "Error: HTTP Error <status>: <text>" on that attempt without retry, in
both modes; with status 200 the buffered mode returns the extracted choice
content and the streaming mode delivers the decoded fragments. -/
theorem C9_success_only_at_200 (rc : Nat) (jl : PyStr → Except PyStr Json) (p : Body) :
    (∀ (env : Nat → HttpAttempt) (a : Nat) (restA : List Nat) (status : Nat)
        (text : PyStr) (rbody : Except PyStr Json),
      status ≠ 200 → env a = .response status text rbody →
      non_stream_go rc env p (a :: restA) =
        ⟨some (.str (strError (strHttpError status text))), [], [p]⟩) ∧
    (∀ (senv : Nat → StreamAttempt) (a : Nat) (restA : List Nat) (status : Nat)
        (text : PyStr) (lines : List PyStr) (midErr : Option PyStr),
      status ≠ 200 → senv a = .response status text lines midErr →
      stream_go jl rc senv p (a :: restA) =
        ⟨[.str (strError (strHttpError status text))], [], [p]⟩) ∧
    (∀ (env : Nat → HttpAttempt) (a : Nat) (restA : List Nat) (text : PyStr)
        (data v : Json),
      env a = .response 200 text (.ok data) → extract_choices data = .ok v →
      non_stream_go rc env p (a :: restA) = ⟨some v, [], [p]⟩) ∧
    (∀ (senv : Nat → StreamAttempt) (a : Nat) (restA : List Nat) (text : PyStr)
        (lines : List PyStr) (fs : List Json),
      senv a = .response 200 text lines none → run_lines jl lines = (fs, LoopEnd.broke) →
      stream_go jl rc senv p (a :: restA) = ⟨fs, [], [p]⟩) := by
  refine ⟨?_, ?_, ?_, ?_⟩
  · intro env a restA status text rbody h200 henv
    simp [non_stream_go, henv, non_stream_attempt, h200]
  · intro senv a restA status text lines midErr h200 hsenv
    simp [stream_go, hsenv, stream_attempt, h200]
  · intro env a restA text data v henv hex
    simp [non_stream_go, henv, non_stream_attempt, hex]
  · intro senv a restA text lines fs hsenv hrun
    simp [stream_go, hsenv, stream_attempt, hrun]

/-- Fixture: a 200 chat-completion body whose first choice's message content
is "hello". -/
def okBody : Json :=
  .obj [(strL "choices",
    .arr [.obj [(strL "message", .obj [(strL "content", .str (strL "hello"))])]])]

/-- Witness for C9: a 201 response is converted to the HTTP error value with
no retry, while a 200 response returns the extracted content (buffered) and
the decoded fragments (streaming). -/
theorem C9_success_only_at_200_witness :
    non_stream_go 2 (fun _ => .response 201 (strL "created") (.ok okBody))
        bodyW [0, 1, 2] =
      ⟨some (.str (strError (strHttpError 201 (strL "created")))), [], [bodyW]⟩ ∧
    non_stream_go 2 (fun _ => .response 200 [] (.ok okBody)) bodyW [0, 1, 2] =
      ⟨some (.str (strL "hello")), [], [bodyW]⟩ ∧
    stream_go jlNone 2 (fun _ => .response 200 [] [strL "data: [DONE]"] none)
        bodyW [0, 1, 2] =
      ⟨[], [], [bodyW]⟩ := by
  obtain ⟨h1, h2, h3, h4⟩ := C9_success_only_at_200 2 jlNone bodyW
  refine ⟨h1 _ 0 [1, 2] 201 (strL "created") (.ok okBody) (by omega) rfl, ?_, ?_⟩
  · exact h3 _ 0 [1, 2] [] okBody (.str (strL "hello")) rfl rfl
  · exact h4 _ 0 [1, 2] [] [strL "data: [DONE]"] [] rfl rfl

/-- Fixture: an image-tagged content part. -/
def imgPart : Part := ⟨some (strL "image_url"), none⟩

/-- C8 fails as stated: a message whose content is two image-tagged parts
shapes to the placeholder twice, joined by a space — not to the placeholder —
and a message whose content is an empty part list (vacuously all
image-tagged) shapes to the empty string and is dropped, not retained. -/
theorem C8_counterexample :
    ((∀ p ∈ [imgPart, imgPart], p.type = some (strL "image_url")) ∧
      shapeContent (.parts [imgPart, imgPart]) ≠ imgPlaceholder) ∧
    ((∀ p ∈ ([] : List Part), p.type = some (strL "image_url")) ∧
      process_messages [⟨some (strL "user"), .parts []⟩] = []) := by
  exact ⟨⟨by decide, by decide⟩, ⟨by decide, rfl⟩⟩

lemma partFrags_img (p : Part) (h : p.type = some (strL "image_url")) :
    partFrags p = [imgPlaceholder] := by
  unfold partFrags
  rw [h, if_neg (by decide), if_pos rfl]

lemma flatten_img (ps : List Part) (h : ∀ p ∈ ps, p.type = some (strL "image_url")) :
    List.flatten (ps.map partFrags) = List.replicate ps.length imgPlaceholder := by
  induction ps with
  | nil => rfl
  | cons q qs ih =>
    simp only [List.map_cons, List.flatten_cons, List.length_cons, List.replicate_succ]
    rw [partFrags_img q (h q (List.mem_cons_self q qs)),
      ih (fun p hp => h p (List.mem_cons_of_mem q hp))]
    rfl

/-- The placeholder without its enclosing brackets. -/
def placeholderMid : PyStr := (imgPlaceholder.drop 1).dropLast

lemma imgPlaceholder_bracketed : imgPlaceholder = '[' :: placeholderMid ++ [']'] := by
  decide

lemma sjoin_replicate_bracketed :
    ∀ n, ∃ mid, sjoin (List.replicate (n + 1) imgPlaceholder) = '[' :: mid ++ [']'] := by
  intro n
  induction n with
  | zero => exact ⟨placeholderMid, imgPlaceholder_bracketed⟩
  | succ n ih =>
    obtain ⟨mid, hm⟩ := ih
    refine ⟨placeholderMid ++ ']' :: ' ' :: '[' :: mid, ?_⟩
    have h1 : List.replicate (n + 2) imgPlaceholder =
        imgPlaceholder :: imgPlaceholder :: List.replicate n imgPlaceholder := by
      simp [List.replicate_succ]
    have h2 : List.replicate (n + 1) imgPlaceholder =
        imgPlaceholder :: List.replicate n imgPlaceholder := by
      simp [List.replicate_succ]
    rw [h1, sjoin, ← h2, hm]
    rw [imgPlaceholder_bracketed]
    simp

lemma pyStrip_bracketed (mid : PyStr) :
    pyStrip ('[' :: mid ++ [']']) = '[' :: mid ++ [']'] := by
  unfold pyStrip
  rw [show ('[' :: mid ++ [']'] : PyStr) = '[' :: (mid ++ [']']) from rfl]
  rw [List.dropWhile_cons, if_neg (by decide)]
  have hrev : ('[' :: (mid ++ [']'])).reverse = ']' :: (mid.reverse ++ ['[']) := by
    simp
  rw [hrev, List.dropWhile_cons, if_neg (by decide)]
  simp

/-- C8 as amended: for every message whose content is a NON-EMPTY sequence of
parts, all image-tagged, the shaped content is the placeholder repeated once
per part, joined by single spaces (so it equals the placeholder exactly when
there is one part), it is non-empty, and the message is retained in the
output with its role (defaulted to "user"). -/
theorem C8_amended (ps : List Part) (hne : ps ≠ [])
    (himg : ∀ p ∈ ps, p.type = some (strL "image_url")) :
    shapeContent (.parts ps) = sjoin (List.replicate ps.length imgPlaceholder) ∧
    shapeContent (.parts ps) ≠ [] ∧
    (∀ r, process_messages [⟨r, .parts ps⟩] =
      [⟨r.getD (strL "user"), shapeContent (.parts ps)⟩]) := by
  obtain ⟨q, qs, rfl⟩ : ∃ q qs, ps = q :: qs := by
    cases ps with
    | nil => exact absurd rfl hne
    | cons q qs => exact ⟨q, qs, rfl⟩
  obtain ⟨mid, hmid⟩ := sjoin_replicate_bracketed qs.length
  have hlen : (q :: qs).length = qs.length + 1 := rfl
  have hsc : shapeContent (.parts (q :: qs)) = '[' :: mid ++ [']'] := by
    have hdef : shapeContent (.parts (q :: qs)) =
        pyStrip (sjoin (List.flatten ((q :: qs).map partFrags))) := rfl
    rw [hdef, flatten_img _ himg, hlen, hmid, pyStrip_bracketed]
  have hjoin : sjoin (List.replicate ((q :: qs).length) imgPlaceholder) =
      '[' :: mid ++ [']'] := by rw [hlen, hmid]
  refine ⟨hsc.trans hjoin.symm, ?_, ?_⟩
  · rw [hsc]; simp
  · intro r
    have hemp : (shapeMessage ⟨r, .parts (q :: qs)⟩).content.isEmpty = false := by
      simp [shapeMessage, hsc]
    simp [process_messages, hemp, shapeMessage, hsc]

/-- Witness for C8 as amended: one image part shapes to exactly the
placeholder; two image parts shape to a non-empty string and the message is
retained with the default role. -/
theorem C8_amended_witness :
    shapeContent (.parts [imgPart]) = imgPlaceholder ∧
    shapeContent (.parts [imgPart, imgPart]) ≠ [] ∧
    process_messages [⟨none, .parts [imgPart, imgPart]⟩] =
      [⟨strL "user", shapeContent (.parts [imgPart, imgPart])⟩] := by
  have hone := C8_amended [imgPart] (by simp) (by decide)
  have htwo := C8_amended [imgPart, imgPart] (by simp) (by decide)
  refine ⟨(hone.1).trans rfl, htwo.2.1, ?_⟩
  have := htwo.2.2 none
  simpa using this

/-- Fixture: the SSE payload "5" (valid JSON, decoding to the number 5). -/
def p5 : PyStr := strL "5"

/-- Fixture: a json.loads stand-in decoding "5" to the number 5 and failing
on everything else, as json.loads does. -/
def jl5 : PyStr → Except PyStr Json :=
  fun s => if s = p5 then .ok (.num 5) else .error (strL "invalid json")

/-- C5 fails as stated: the payload of the event "data: 5" is valid JSON of a
shape not matched by any earlier clause, so the claim says it yields nothing
and the sequence continues; instead the membership test `"choices" in data`
raises a TypeError, which the outer handler turns into a terminal
"Error: ..." fragment, ending the sequence — the following line is never
processed. -/
theorem C5_counterexample :
    process_sse_line jl5 (strL "data: 5") =
      .abort (strL "argument is not iterable") ∧
    run_lines jl5 [strL "data: 5", strL "data: 5"] =
      ([], .aborted (strL "argument is not iterable")) ∧
    stream_response jl5 0 (fun _ => .response 200 [] [strL "data: 5"] none) bodyW =
      ⟨[.str (strError (strL "argument is not iterable"))], [], [bodyW]⟩ :=
  ⟨rfl, rfl, rfl⟩

/-- C5 as amended: for every consumed SSE data line, a literal "[DONE]"
payload ends the sequence successfully; a JSON payload whose first choice is
an object with a truthy (non-empty) delta.content yields exactly that content
as the next fragment; a JSON-object payload whose first choice is an object
without a delta key but with a truthy finish reason ends the sequence
successfully; an invalid-JSON payload is skipped and the sequence continues;
a JSON-object payload with no choices key, or whose first choice is an object
with no delta key and no truthy finish reason, yields nothing and the
sequence continues; but a payload whose dynamic type breaks the shape test
itself — such as a bare number — ends the sequence with a terminal
"Error: ..." fragment instead of continuing. -/
theorem C5_amended (jl : PyStr → Except PyStr Json) (payload : PyStr)
    (restL : List PyStr) :
    (pyStrip payload = strL "[DONE]" →
      run_lines jl ((strL "data: " ++ payload) :: restL) = ([], .broke)) ∧
    (pyStrip payload ≠ strL "[DONE]" → (pyStrip payload).isEmpty = false →
      ((∀ e, jl payload = .error e →
        run_lines jl ((strL "data: " ++ payload) :: restL) = run_lines jl restL) ∧
      (∀ kvs ckvs cs dkvs content,
        jl payload = .ok (.obj kvs) →
        jlookup (strL "choices") kvs = some (.arr (.obj ckvs :: cs)) →
        jlookup (strL "delta") ckvs = some (.obj dkvs) →
        jlookup (strL "content") dkvs = some content →
        pyTruthy content = true →
        run_lines jl ((strL "data: " ++ payload) :: restL) =
          (content :: (run_lines jl restL).1, (run_lines jl restL).2)) ∧
      (∀ kvs ckvs cs fr,
        jl payload = .ok (.obj kvs) →
        jlookup (strL "choices") kvs = some (.arr (.obj ckvs :: cs)) →
        jlookup (strL "delta") ckvs = none →
        jlookup (strL "finish_reason") ckvs = some fr →
        pyTruthy fr = true →
        run_lines jl ((strL "data: " ++ payload) :: restL) = ([], .broke)) ∧
      (∀ kvs,
        jl payload = .ok (.obj kvs) →
        jlookup (strL "choices") kvs = none →
        run_lines jl ((strL "data: " ++ payload) :: restL) = run_lines jl restL) ∧
      (∀ kvs ckvs cs,
        jl payload = .ok (.obj kvs) →
        jlookup (strL "choices") kvs = some (.arr (.obj ckvs :: cs)) →
        jlookup (strL "delta") ckvs = none →
        pyTruthy ((jlookup (strL "finish_reason") ckvs).getD .null) = false →
        run_lines jl ((strL "data: " ++ payload) :: restL) = run_lines jl restL) ∧
      (∀ k : Int,
        jl payload = .ok (.num k) →
        run_lines jl ((strL "data: " ++ payload) :: restL) =
          ([], .aborted (strL "argument is not iterable")) ∧
        (∀ text, stream_attempt jl
            (.response 200 text ((strL "data: " ++ payload) :: restL) none) =
          .genexc [] (strL "argument is not iterable"))))) := by
  have hline : process_sse_line jl (strL "data: " ++ payload) =
      (if pyStrip payload = strL "[DONE]" then LineEff.stop
       else if (pyStrip payload).isEmpty then LineEff.cont none
       else
         match jl payload with
         | .error _ => LineEff.cont none
         | .ok data => sse_handle data) := rfl
  constructor
  · intro hdone
    simp [run_lines, hline, if_pos hdone]
  · intro hnd hne
    have hok : ∀ data, jl payload = .ok data →
        process_sse_line jl (strL "data: " ++ payload) = sse_handle data := by
      intro data hjl
      rw [hline, if_neg hnd, if_neg (by simp [hne]), hjl]
    refine ⟨?_, ?_, ?_, ?_, ?_, ?_⟩
    · intro e hjl
      have hps : process_sse_line jl (strL "data: " ++ payload) = .cont none := by
        rw [hline, if_neg hnd, if_neg (by simp [hne]), hjl]
      simp [run_lines, hps]
    · intro kvs ckvs cs dkvs content hjl hc hd hco htr
      have hsse : sse_handle (.obj kvs) = .cont (some content) := by
        simp [sse_handle, sse_handle_exc, pyContains, pyIndexKey, pyLen, pyIndexZero,
          pyGet, hc, hd, hco, htr, Except.bind, Except.map]
      simp [run_lines, (hok _ hjl).trans hsse]
    · intro kvs ckvs cs fr hjl hc hd hfr htr
      have hsse : sse_handle (.obj kvs) = .stop := by
        simp [sse_handle, sse_handle_exc, pyContains, pyIndexKey, pyLen, pyIndexZero,
          pyGet, hc, hd, hfr, htr, Except.bind, Except.map]
      simp [run_lines, (hok _ hjl).trans hsse]
    · intro kvs hjl hc
      have hsse : sse_handle (.obj kvs) = .cont none := by
        simp [sse_handle, sse_handle_exc, pyContains, hc, Except.bind]
      simp [run_lines, (hok _ hjl).trans hsse]
    · intro kvs ckvs cs hjl hc hd htr
      have hsse : sse_handle (.obj kvs) = .cont none := by
        simp [sse_handle, sse_handle_exc, pyContains, pyIndexKey, pyLen, pyIndexZero,
          pyGet, hc, hd, htr, Except.bind, Except.map]
      simp [run_lines, (hok _ hjl).trans hsse]
    · intro k hjl
      have hsse : sse_handle (.num k) = .abort (strL "argument is not iterable") := rfl
      have hrun : run_lines jl ((strL "data: " ++ payload) :: restL) =
          ([], .aborted (strL "argument is not iterable")) := by
        simp [run_lines, (hok _ hjl).trans hsse]
      refine ⟨hrun, ?_⟩
      intro text
      simp [stream_attempt, hrun]

/-- Fixture: a content-bearing SSE chat chunk payload. -/
def pContentEv : PyStr :=
  strL "\x7b\"choices\": [\x7b\"delta\": \x7b\"content\": \"hi\"\x7d\x7d]\x7d"

/-- Fixture: a finish-reason SSE chat chunk payload. -/
def pFinishEv : PyStr := strL "\x7b\"choices\": [\x7b\"finish_reason\": \"stop\"\x7d]\x7d"

/-- Fixture: a JSON object payload with no choices key. -/
def pNoChoices : PyStr := strL "\x7b\"a\": 1\x7d"

/-- Fixture: an undecodable payload. -/
def pBad : PyStr := strL "not json"

/-- Fixture: a json.loads stand-in decoding each fixture payload to its real
JSON value and failing on everything else. -/
def jlW : PyStr → Except PyStr Json :=
  fun s =>
    if s = pContentEv then
      .ok (.obj [(strL "choices",
        .arr [.obj [(strL "delta", .obj [(strL "content", .str (strL "hi"))])]])])
    else if s = pFinishEv then
      .ok (.obj [(strL "choices", .arr [.obj [(strL "finish_reason", .str (strL "stop"))]])])
    else if s = pNoChoices then .ok (.obj [(strL "a", .num 1)])
    else if s = p5 then .ok (.num 5)
    else .error (strL "invalid json")

/-- Witness for C5 as amended, at concrete events: [DONE] ends the sequence;
a content chunk yields "hi" and processing continues to the next line; an
undecodable line and a choices-free object are skipped; a bare-number payload
aborts with the terminal error. -/
theorem C5_amended_witness :
    run_lines jlW [strL "data: " ++ strL "[DONE]"] = ([], .broke) ∧
    run_lines jlW [strL "data: " ++ pContentEv, strL "data: " ++ pFinishEv] =
      ([.str (strL "hi")], .broke) ∧
    run_lines jlW [strL "data: " ++ pBad, strL "data: " ++ pFinishEv] = ([], .broke) ∧
    run_lines jlW [strL "data: " ++ pNoChoices, strL "data: " ++ pFinishEv] =
      ([], .broke) ∧
    run_lines jlW [strL "data: " ++ p5] =
      ([], .aborted (strL "argument is not iterable")) := by
  refine ⟨?_, ?_, ?_, ?_, ?_⟩
  · exact (C5_amended jlW (strL "[DONE]") []).1 (by decide)
  · have h := ((C5_amended jlW pContentEv [strL "data: " ++ pFinishEv]).2
      (by decide) (by decide)).2.1
      [(strL "choices",
        .arr [.obj [(strL "delta", .obj [(strL "content", .str (strL "hi"))])]])]
      [(strL "delta", .obj [(strL "content", .str (strL "hi"))])] []
      [(strL "content", .str (strL "hi"))] (.str (strL "hi"))
      rfl rfl rfl rfl rfl
    exact h.trans (by rfl)
  · have h := ((C5_amended jlW pBad [strL "data: " ++ pFinishEv]).2
      (by decide) (by decide)).1 (strL "invalid json") rfl
    exact h.trans (by rfl)
  · have h := ((C5_amended jlW pNoChoices [strL "data: " ++ pFinishEv]).2
      (by decide) (by decide)).2.2.2.1 [(strL "a", .num 1)] rfl rfl
    exact h.trans (by rfl)
  · exact (((C5_amended jlW p5 []).2 (by decide) (by decide)).2.2.2.2.2 5 rfl).1

lemma non_stream_go_calls_mem (rc : Nat) (env : Nat → HttpAttempt) (p : Body) :
    ∀ (l : List Nat) (q : Body), q ∈ (non_stream_go rc env p l).calls → q = p := by
  intro l
  induction l with
  | nil => intro q hq; simp [non_stream_go] at hq
  | cons a restA ih =>
    intro q hq
    simp only [non_stream_go] at hq
    cases hA : non_stream_attempt (env a) with
    | ok v => rw [hA] at hq; simp at hq; exact hq
    | genExc m => rw [hA] at hq; simp at hq; exact hq
    | reqExc m =>
      rw [hA] at hq
      by_cases ha : a = rc
      · simp [ha] at hq; exact hq
      · simp only [if_neg ha, List.mem_cons] at hq
        rcases hq with rfl | hq
        · rfl
        · exact ih q hq

lemma stream_go_calls_mem (jl : PyStr → Except PyStr Json) (rc : Nat)
    (env : Nat → StreamAttempt) (p : Body) :
    ∀ (l : List Nat) (q : Body), q ∈ (stream_go jl rc env p l).calls → q = p := by
  intro l
  induction l with
  | nil => intro q hq; simp [stream_go] at hq
  | cons a restA ih =>
    intro q hq
    simp only [stream_go] at hq
    cases hA : stream_attempt jl (env a) with
    | success fs => rw [hA] at hq; simp at hq; exact hq
    | genexc fs m => rw [hA] at hq; simp at hq; exact hq
    | reqexc fs m =>
      rw [hA] at hq
      by_cases ha : a = rc
      · simp [ha] at hq; exact hq
      · simp only [if_neg ha, List.mem_cons] at hq
        rcases hq with rfl | hq
        · rfl
        · exact ih q hq

/-- C10: whenever pipe reaches a dispatch, the caller's body mapping has been
mutated in place: model holds the normalized id, messages (when present) the
shaped sequence, and the stream, input, prompt and remaining fields are
untouched; the dispatched payload is that very mutated mapping, and both
retry loops pass exactly it to every HTTP call they issue. -/
theorem C10_inplace_body_mutation (v : Valves) (b : Body) (url : PyStr) (s : Bool)
    (p : Body) (hd : (pipe v b).outcome = .dispatched url s p) :
    p = (pipe v b).body ∧
    (pipe v b).body.model = some (process_model_id (b.model.getD [])) ∧
    (pipe v b).body.messages =
      b.messages.map (fun ms => (process_messages ms).map chatToRaw) ∧
    (pipe v b).body.stream = b.stream ∧
    (pipe v b).body.input = b.input ∧
    (pipe v b).body.prompt = b.prompt ∧
    (pipe v b).body.rest = b.rest ∧
    (∀ (rc : Nat) (env : Nat → HttpAttempt) (l : List Nat) (q : Body),
      q ∈ (non_stream_go rc env p l).calls → q = p) ∧
    (∀ (jl : PyStr → Except PyStr Json) (rc : Nat) (senv : Nat → StreamAttempt)
        (l : List Nat) (q : Body),
      q ∈ (stream_go jl rc senv p l).calls → q = p) := by
  have hmain : p = (pipe v b).body ∧
      (pipe v b).body = { b with
        model := some (process_model_id (b.model.getD [])),
        messages := b.messages.map (fun ms => (process_messages ms).map chatToRaw) } := by
    cases hm : (process_model_id (b.model.getD [])).isEmpty with
    | true =>
      rw [pipe] at hd
      simp [hm] at hd
    | false =>
      cases hmsg : b.messages with
      | some ms =>
        rw [pipe] at hd ⊢
        simp [hm, hmsg] at hd ⊢
        exact hd.2.2.symm
      | none =>
        cases hin : b.input with
        | some iv =>
          rw [pipe] at hd ⊢
          simp [hm, hmsg, hin] at hd ⊢
          exact hd.2.2.symm
        | none =>
          cases hpr : b.prompt with
          | some pv =>
            rw [pipe] at hd ⊢
            simp [hm, hmsg, hin, hpr] at hd ⊢
            exact hd.2.2.symm
          | none =>
            rw [pipe] at hd
            simp [hm, hmsg, hin, hpr] at hd
  refine ⟨hmain.1, ?_, ?_, ?_, ?_, ?_, ?_, ?_, ?_⟩
  · rw [hmain.2]
  · rw [hmain.2]
  · rw [hmain.2]
  · rw [hmain.2]
  · rw [hmain.2]
  · rw [hmain.2]
  · intro rc env l q hq; exact non_stream_go_calls_mem rc env p l q hq
  · intro jl rc senv l q hq; exact stream_go_calls_mem jl rc senv p l q hq

/-- Fixture: a concrete configuration. -/
def valvesW : Valves := ⟨strL "http://mr", strL "/engines/llama.cpp/v1", 2⟩

/-- Fixture: a chat request body with a prefixed model id and an extra field. -/
def bodyC10 : Body :=
  ⟨some (strL "dmr.llama3"), some [⟨some (strL "user"), .plain (strL "hi")⟩],
    none, none, some (.str (strL "x")), [(strL "temperature", .num 1)]⟩

/-- Fixture: bodyC10 after the in-place mutation pipe performs. -/
def payloadC10 : Body :=
  ⟨some (strL "llama3"), some [⟨some (strL "user"), .plain (strL "hi")⟩],
    none, none, some (.str (strL "x")), [(strL "temperature", .num 1)]⟩

/-- Witness for C10: dispatching bodyC10 rewrites its model field to the
normalized id, replaces the messages with the shaped sequence, leaves the
extra field untouched, and the dispatched payload is the mutated mapping. -/
theorem C10_inplace_body_mutation_witness :
    (pipe valvesW bodyC10).body.model = some (strL "llama3") ∧
    (pipe valvesW bodyC10).body.messages =
      some [⟨some (strL "user"), RawContent.plain (strL "hi")⟩] ∧
    (pipe valvesW bodyC10).body.rest = [(strL "temperature", Json.num 1)] ∧
    payloadC10 = (pipe valvesW bodyC10).body := by
  obtain ⟨hp, hmodel, hmsgs, -, -, -, hrest, -, -⟩ :=
    C10_inplace_body_mutation valvesW bodyC10
      (get_dmr_url valvesW ++ strL "/chat/completions") false payloadC10 rfl
  exact ⟨hmodel.trans (by rfl), hmsgs.trans (by rfl), hrest.trans rfl, hp⟩

end DMR
